import Mathlib

/-!
Shallow embedding of the token lifecycle and authorization-scope engine of
the user-service repository (`src/users/core/tokens`, `src/users/core/access`,
`src/users/core/roles`, and the SQLAlchemy repository implementations in
`src/users/infrastructure/db`).

Conventions of the embedding:
* timestamps (`datetime`) are unix seconds as `Int`; `timedelta(days=d)` is
  `86400*d` and `timedelta(seconds=s)` is `s`;
* Python exceptions become an explicit `PyErr` value in `Except`;
* the opaque random values produced by `secrets.token_urlsafe` and
  `uuid4` are passed in as explicit arguments (`fresh_id`, `fresh_token`);
* a signed JWT compact string is represented by the `Jwt` structure holding
  the payload together with the key and algorithm it was signed with;
  `jwt_decode` succeeds exactly when key and algorithm match and the `exp`
  claim (when present) is not in the past, mirroring `jose.jwt`;
* the persistence ports (`TokenRepository`, `RoleRepository`) are modelled
  by their production implementations `TokenRepositoryOnSQLA` and
  `RoleRepositoryOnSQLA` acting on in-memory stores of rows.
-/

/-- Embedding of `users/core/shared/uuid.py`: opaque id wrapper around a uuid string. -/
structure UserId where
  value : String
deriving DecidableEq, Repr

/-- Embedding of `users/core/tokens/domain/token.py`: `RefreshTokenId(UUID)`. -/
structure RefreshTokenId where
  value : String
deriving DecidableEq, Repr

/-- Embedding of `users/core/tokens/domain/token_user.py`: the token-side user projection. -/
structure TokenUser where
  id : UserId
  scopes : List String
  password_hash : String
deriving DecidableEq, Repr

/-- Python exception values that the token engine can raise. -/
inductive PyErr where
  | valueError (msg : String)
  | jwtError (msg : String)
deriving DecidableEq, Repr

/-- The message an exception was constructed with (Python `str(e)`). -/
def PyErr.message : PyErr → String
  | .valueError m => m
  | .jwtError m => m

/-- The JWT claim set built by `TokenServices.create_access_token`
(`sub`, `rtk`, `exp`, `scopes`); `rtk` and `exp` are optional so that
tokens missing them can be analysed. -/
structure Claims where
  sub : String
  rtk : Option String
  exp : Option Int
  scopes : List String
deriving DecidableEq, Repr

/-- A signed compact token as produced by `jose.jwt.encode`: the payload
plus the signing key and algorithm (signature checking is modelled as
comparing these). -/
structure Jwt where
  payload : Claims
  key : String
  alg : String
deriving DecidableEq, Repr

/-- Embedding of `jose.jwt.encode(to_encode, key, algorithm)`. -/
def jwt_encode (to_encode : Claims) (key : String) (algorithm : String) : Jwt :=
  { payload := to_encode, key := key, alg := algorithm }

/-- Embedding of `jose.jwt.decode(token, key, algorithms)`: verifies the signature and,
per jose defaults, rejects a token whose `exp` claim is strictly in the
past (`exp < now` raises `ExpiredSignatureError`, a `JWTError`). -/
def jwt_decode (token : Jwt) (key : String) (algorithms : List String)
    (now : Int) : Except PyErr Claims :=
  if token.key = key ∧ token.alg ∈ algorithms then
    match token.payload.exp with
    | some e =>
        if e < now then .error (.jwtError "Signature has expired.")
        else .ok token.payload
    | none => .ok token.payload
  else .error (.jwtError "Signature verification failed.")

/-- Embedding of `users/core/tokens/schemas.py`: `TokenConfigurations`. -/
structure TokenConfigurations where
  ALGORITHM : String
  SECRET_KEY : String
  REFRESH_TOKEN_TTL_DAYS : Int
  ACCESS_TOKEN_TTL_SECONDS : Int
deriving DecidableEq, Repr

/-- Embedding of `users/core/tokens/schemas.py`: `TokenPairInput`. -/
structure TokenPairInput where
  email : String
  password : String
deriving DecidableEq, Repr

/-- Embedding of `users/core/tokens/domain/token.py`: `RefreshToken`. -/
structure RefreshToken where
  id : RefreshTokenId
  token : String
  token_type : String := "refresh"
  expiration : Int
  user_id : String
deriving DecidableEq, Repr

/-- Embedding of `users/core/tokens/domain/token.py`: `AccessToken` as returned by
`create_access_token` (`token` is the signed compact string). -/
structure AccessToken where
  token : Jwt
  token_type : String := "access"
  expiration : Int
deriving DecidableEq, Repr

/-- A row of the users table together with the flattened scope set that
`TokenRepositoryOnSQLA._map_to_token_user` derives from the user's roles. -/
structure StoredUser where
  id : String
  email : String
  password_hash : String
  scopes : List String
deriving DecidableEq, Repr

/-- Embedding of `TokenRepositoryOnSQLA._map_to_token_user`. -/
def map_to_token_user (record : StoredUser) : TokenUser :=
  { id := { value := record.id }
    scopes := record.scopes
    password_hash := record.password_hash }

/-- The in-memory contents behind `TokenRepositoryOnSQLA`: the
`RefreshTokenRecord` rows and the user rows they join against. -/
structure TokenStore where
  refresh_tokens : List RefreshToken
  users : List StoredUser
deriving DecidableEq, Repr

/-- Embedding of `TokenRepositoryOnSQLA.find_by_token`. -/
def find_by_token (s : TokenStore) (refresh_token : String) :
    Option RefreshToken :=
  s.refresh_tokens.find? (fun r => decide (r.token = refresh_token))

/-- Embedding of `TokenRepositoryOnSQLA.find_user_by_refresh_token_id`: join of the user
table with the refresh-token table on `user_id`, filtered by token id. -/
def find_user_by_refresh_token_id (s : TokenStore)
    (refresh_token_id : RefreshTokenId) : Option TokenUser :=
  (s.refresh_tokens.find? (fun r => decide (r.id = refresh_token_id))).bind
    (fun r =>
      (s.users.find? (fun u => decide (u.id = r.user_id))).map map_to_token_user)

/-- Embedding of `TokenRepositoryOnSQLA.find_user_by_refresh_token`: same join filtered
by the opaque token string. -/
def find_user_by_refresh_token (s : TokenStore) (refresh_token : String) :
    Option TokenUser :=
  (s.refresh_tokens.find? (fun r => decide (r.token = refresh_token))).bind
    (fun r =>
      (s.users.find? (fun u => decide (u.id = r.user_id))).map map_to_token_user)

/-- Embedding of `TokenRepositoryOnSQLA.find_user_by_email`. -/
def find_user_by_email (s : TokenStore) (email : String) : Option TokenUser :=
  (s.users.find? (fun u => decide (u.email = email))).map map_to_token_user

/-- Embedding of `TokenRepositoryOnSQLA.save_refresh_token` (success path: the row is
added to the table). -/
def save_refresh_token (s : TokenStore) (refresh_token : RefreshToken) :
    TokenStore :=
  { s with refresh_tokens := s.refresh_tokens ++ [refresh_token] }

/-- Embedding of `TokenRepositoryOnSQLA.remove_refresh_token`: deletes the rows matching
both `user_id` and `token`; raises `ValueError` when no row matched
(`rowcount == 0`). -/
def remove_refresh_token (s : TokenStore) (user_id : UserId)
    (refresh_token : String) : Except PyErr TokenStore :=
  let matched := s.refresh_tokens.filter
    (fun r => decide (r.user_id = user_id.value ∧ r.token = refresh_token))
  if matched.length = 0 then
    .error (.valueError s!"Refresh token not found for user {user_id.value}.")
  else
    let remaining := s.refresh_tokens.filter
      (fun r => !decide (r.user_id = user_id.value ∧ r.token = refresh_token))
    .ok { s with refresh_tokens := remaining }

/-- Embedding of `users/core/tokens/domain/token_user.py`: `TokenUser.verify_password`
delegates to the bcrypt capability (`checkpw plain hash`), passed in as a
parameter. -/
def verify_password (checkpw : String → String → Bool) (user : TokenUser)
    (password : String) : Bool :=
  checkpw password user.password_hash

/-- Embedding of `TokenServices.create_refresh_token`: builds the refresh token with the
freshly generated id and opaque string, expiration
`valid_from + timedelta(days=REFRESH_TOKEN_TTL_DAYS)`, persists it, returns
it together with the updated store. -/
def create_refresh_token (config : TokenConfigurations) (s : TokenStore)
    (fresh_id : RefreshTokenId) (fresh_token : String) (user : TokenUser)
    (valid_from : Int) : RefreshToken × TokenStore :=
  let refresh_token : RefreshToken :=
    { id := fresh_id
      token := fresh_token
      token_type := "refresh"
      expiration := valid_from + 86400 * config.REFRESH_TOKEN_TTL_DAYS
      user_id := user.id.value }
  (refresh_token, save_refresh_token s refresh_token)

/-- Embedding of `TokenServices.create_access_token`: pure; builds the claims
`{sub, rtk, exp, scopes}` and signs them with the configured secret and
algorithm. -/
def create_access_token (config : TokenConfigurations) (user : TokenUser)
    (refresh_token : RefreshToken) (valid_from : Int) : AccessToken :=
  let refresh_token_id := refresh_token.id
  let expire := valid_from + config.ACCESS_TOKEN_TTL_SECONDS
  let to_encode : Claims :=
    { sub := user.id.value
      rtk := some refresh_token_id.value
      exp := some expire
      scopes := user.scopes }
  let access_token := jwt_encode to_encode config.SECRET_KEY config.ALGORITHM
  { token := access_token, token_type := "access", expiration := expire }

/-- Embedding of `TokenServices.get_user_from_refresh_token`. -/
def get_user_from_refresh_token (s : TokenStore) (refresh_token : String) :
    Except PyErr TokenUser :=
  match find_user_by_refresh_token s refresh_token with
  | none => .error (.valueError "Not found user by refresh token")
  | some user => .ok user

/-- Embedding of `TokenServices.get_user_from_access_token`: decode and verify the JWT,
require the `rtk` claim, raise `JWTError("Access token has expired")` when
`exp` is missing or `datetime.now() > exp`, then resolve the owning user
through `find_user_by_refresh_token_id`. -/
def get_user_from_access_token (config : TokenConfigurations) (s : TokenStore)
    (now : Int) (access_token : Jwt) : Except PyErr TokenUser :=
  match jwt_decode access_token config.SECRET_KEY [config.ALGORITHM] now with
  | .error e => .error e
  | .ok payload =>
    match payload.rtk with
    | none => .error (.jwtError "Refresh Token ID not found in token")
    | some refresh_token_id =>
      let expired :=
        match payload.exp with
        | none => true
        | some expiration_time => decide (now > expiration_time)
      if expired then .error (.jwtError "Access token has expired")
      else
        match find_user_by_refresh_token_id s
            { value := refresh_token_id } with
        | none => .error (.valueError s!"User not found: id={refresh_token_id}")
        | some user => .ok user

/-- Embedding of `TokenServices.get_refresh_token`. -/
def get_refresh_token (s : TokenStore) (refresh_token : String) :
    Except PyErr RefreshToken :=
  match find_by_token s refresh_token with
  | none => .error (.valueError "Token not found")
  | some token => .ok token

/-- Embedding of `TokenServices.create_token_pair`: look up the user by email; raise
`ValueError("Incorrect username or password.")` when there is no such user
or the password does not verify; otherwise compose `create_refresh_token`
and `create_access_token`. -/
def create_token_pair (config : TokenConfigurations)
    (checkpw : String → String → Bool) (s : TokenStore)
    (fresh_id : RefreshTokenId) (fresh_token : String)
    (token_pair_input : TokenPairInput) (valid_from : Int) :
    Except PyErr ((RefreshToken × AccessToken) × TokenStore) :=
  match find_user_by_email s token_pair_input.email with
  | none => .error (.valueError "Incorrect username or password.")
  | some user =>
    if verify_password checkpw user token_pair_input.password then
      let rt := create_refresh_token config s fresh_id fresh_token user valid_from
      let access_token := create_access_token config user rt.1 valid_from
      .ok ((rt.1, access_token), rt.2)
    else .error (.valueError "Incorrect username or password.")

/-- Embedding of `TokenServices.revoke_refresh_token`: resolve the owning user (raising
`ValueError("Refresh token not found")` when unknown), then delete the
`(user_id, token)` pair; any raised exception is re-wrapped as
`ValueError(f"Error revoking refresh token: {e}")`. -/
def revoke_refresh_token (s : TokenStore) (refresh_token : String) :
    Except PyErr TokenStore :=
  match find_user_by_refresh_token s refresh_token with
  | none =>
    let inner := "Refresh token not found"
    .error (.valueError s!"Error revoking refresh token: {inner}")
  | some user =>
    match remove_refresh_token s user.id refresh_token with
    | .error e =>
      let inner := e.message
      .error (.valueError s!"Error revoking refresh token: {inner}")
    | .ok s' => .ok s'

/-- Embedding of `users/core/access/actor.py`: the closed `UserScope` enumeration. -/
inductive UserScope where
  | USER_READ
  | USER_WRITE
  | USER_READ_SELF
  | USER_WRITE_SELF
deriving DecidableEq, Repr

/-- The string value of each `UserScope` member. -/
def UserScope.value : UserScope → String
  | .USER_READ => "users"
  | .USER_WRITE => "users.write"
  | .USER_READ_SELF => "users:self"
  | .USER_WRITE_SELF => "users:self.write"

/-- Membership test `s in UserScope._value2member_map_` together with the
`UserScope(s)` constructor: the member whose value is `s`, when any. -/
def userScopeOfValue (s : String) : Option UserScope :=
  if s = "users" then some .USER_READ
  else if s = "users.write" then some .USER_WRITE
  else if s = "users:self" then some .USER_READ_SELF
  else if s = "users:self.write" then some .USER_WRITE_SELF
  else none

/-- Embedding of `users/core/access/actor.py`: `Actor`. -/
structure Actor where
  user_id : UserId
  scopes : List UserScope
deriving DecidableEq, Repr

/-- Embedding of `Actor.has_scope`: `any(s == scope for s in self.scopes)`. -/
def Actor.has_scope (a : Actor) (scope : UserScope) : Bool :=
  a.scopes.any (fun s => decide (s = scope))

/-- Embedding of `Actor.has_any_scope`: truthiness of
`set(self.scopes).intersection(scopes)` — a nonempty intersection of the
granted set with the required collection. -/
def Actor.has_any_scope (a : Actor) (scopes : List UserScope) : Bool :=
  decide (a.scopes.toFinset ∩ scopes.toFinset).Nonempty

/-- Errors raised by the FastAPI boundary (`HTTPException(status, detail)`). -/
structure HttpException where
  status_code : Nat
  detail : String
deriving DecidableEq, Repr

/-- Embedding of `users/api/middlewares/access_scopes.py`: `has_any_scope` dependency.
Decodes the bearer JWT (any `JWTError` becomes a 401 "Invalid token"),
builds the `Actor` keeping only the payload scope strings that are values
of `UserScope` (unknown strings are silently dropped by the
comprehension's `if s in UserScope._value2member_map_` filter), and
rejects with a 403 when the actor holds none of the required scopes.
The interpolated list in the 403 detail is rendered with `reprStr`. -/
def middleware_has_any_scope (config : TokenConfigurations)
    (security_scopes : List UserScope) (now : Int) (token : Jwt) :
    Except HttpException Actor :=
  match jwt_decode token config.SECRET_KEY [config.ALGORITHM] now with
  | .error _ => .error { status_code := 401, detail := "Invalid token" }
  | .ok payload =>
    let actor : Actor :=
      { user_id := { value := payload.sub }
        scopes := payload.scopes.filterMap userScopeOfValue }
    let required_scopes := security_scopes
    if actor.has_any_scope required_scopes then .ok actor
    else
      let shown := reprStr required_scopes
      .error { status_code := 403
               detail := s!"Insufficient scopes. Required either of: {shown}" }

/-- Embedding of `users/core/shared/id.py`: `RoleId`. -/
structure RoleId where
  value : String
deriving DecidableEq, Repr

/-- Embedding of `users/core/roles/domain/permission.py`: `Permission`; `__eq__` and
`__hash__` are by the `(name, namespace)` pair, which coincides with
structural equality since those are the only fields. -/
structure Permission where
  name : String
  «namespace» : String
deriving DecidableEq, Repr

/-- Embedding of `Permission.full_name`: the f-string `f"{self.namespace}.{self.name}"`. -/
def Permission.full_name (p : Permission) : String :=
  p.«namespace» ++ "." ++ p.name

/-- Embedding of `users/core/roles/domain/role.py`: `Role` with a Python `set` of
permissions, modelled as a `Finset`. -/
structure Role where
  id : RoleId
  name : String
  permissions : Finset Permission
deriving DecidableEq

/-- The in-memory contents behind `RoleRepositoryOnSQLA`: the role rows and
the permission rows. -/
structure RoleStore where
  roles : List Role
  permissions : List Permission
deriving DecidableEq

/-- Embedding of `RoleRepositoryOnSQLA.find_by_id`. -/
def find_role_by_id (s : RoleStore) (role_id : RoleId) : Option Role :=
  s.roles.find? (fun r => decide (r.id = role_id))

/-- Embedding of `RoleRepositoryOnSQLA.find_permission`: lookup by (namespace, name). -/
def find_permission (s : RoleStore) (ns : String) (name : String) :
    Option Permission :=
  s.permissions.find? (fun p => decide (p.«namespace» = ns ∧ p.name = name))

/-- Embedding of `RoleRepositoryOnSQLA.ensure_permission_exists`: return the existing
permission when found, otherwise insert the new row and return it. -/
def ensure_permission_exists (s : RoleStore) (permission : Permission) :
    Permission × RoleStore :=
  match find_permission s permission.«namespace» permission.name with
  | some existing => (existing, s)
  | none => (permission, { s with permissions := s.permissions ++ [permission] })

/-- Embedding of `RoleRepositoryOnSQLA.save`: `session.merge` — upsert the role row by
primary key. -/
def save_role (s : RoleStore) (role : Role) : RoleStore :=
  if s.roles.any (fun r => decide (r.id = role.id)) then
    { s with roles := s.roles.map (fun r => if r.id = role.id then role else r) }
  else
    { s with roles := s.roles ++ [role] }

/-- Embedding of `RoleRepositoryOnSQLA.delete`: delete the role row by id. -/
def delete_role_row (s : RoleStore) (role : Role) : RoleStore :=
  { s with roles := s.roles.filter (fun r => !decide (r.id = role.id)) }

/-- Embedding of `RoleRepositoryOnSQLA.any_role_uses_permission`: live scan — does any
role row join to a permission row with this (namespace, name)? -/
def any_role_uses_permission (s : RoleStore) (permission : Permission) : Bool :=
  s.roles.any (fun r => decide (permission ∈ r.permissions))

/-- Embedding of `RoleRepositoryOnSQLA.ensure_permission_deleted`: delete the permission
rows with this (namespace, name). -/
def ensure_permission_deleted (s : RoleStore) (permission : Permission) :
    RoleStore :=
  { s with permissions := s.permissions.filter (fun p => !decide (p = permission)) }

/-- Python's `perm.split(".")` for the single-character separator `"."`:
split at every dot, keeping empty pieces (`"".split(".") == [""]`). -/
def py_split_dot_aux : List Char → List Char → List String
  | [], acc => [String.mk acc.reverse]
  | c :: cs, acc =>
      if c = '.' then String.mk acc.reverse :: py_split_dot_aux cs []
      else py_split_dot_aux cs (c :: acc)

/-- Python `perm.split(".")`. -/
def py_split_dot (s : String) : List String :=
  py_split_dot_aux s.toList []

/-- The `ValueError` Python raises when `namespace, name = parts` unpacks a
list whose length is not 2. -/
def unpack2_error (n : Nat) : PyErr :=
  if 2 < n then .valueError "too many values to unpack (expected 2)"
  else .valueError s!"not enough values to unpack (expected 2, got {n})"

/-- The loop body of `RoleServices.create_role`: for one permission string,
`namespace, name = perm.split(".")`, then reuse the existing permission or
create it, adding the result to the accumulated `unique_permissions` set. -/
def create_role_step (acc : Finset Permission × RoleStore) (perm : String) :
    Except PyErr (Finset Permission × RoleStore) :=
  match py_split_dot perm with
  | [ns, name] =>
    match find_permission acc.2 ns name with
    | some existing_perm => .ok (insert existing_perm acc.1, acc.2)
    | none =>
      let permission : Permission := { name := name, «namespace» := ns }
      let ensured := ensure_permission_exists acc.2 permission
      .ok (insert permission acc.1, ensured.2)
  | parts => .error (unpack2_error parts.length)

/-- Embedding of `RoleServices.create_role`: iterate over the permission strings (the
Python `set` iteration order is the list order here), assemble the role
with the deduplicated permission set, persist it. -/
def create_role (s : RoleStore) (fresh_id : RoleId) (input_name : String)
    (input_permissions : List String) : Except PyErr (Role × RoleStore) :=
  match input_permissions.foldlM create_role_step ((∅ : Finset Permission), s) with
  | .error e => .error e
  | .ok acc =>
    let role : Role := { id := fresh_id, name := input_name, permissions := acc.1 }
    .ok (role, save_role acc.2 role)

/-- Embedding of `RoleServices.delete_role`. -/
def delete_role (s : RoleStore) (role_id : RoleId) : Bool × RoleStore :=
  match find_role_by_id s role_id with
  | none => (false, s)
  | some role => (true, delete_role_row s role)

/-- Embedding of `RoleServices.assign_permission_to_role`: false when the role is not
found; otherwise ensure the permission exists, add it to the role's set
(a Python set add — idempotent), persist. -/
def assign_permission_to_role (s : RoleStore) (role_id : RoleId)
    (permission : Permission) : Bool × RoleStore :=
  match find_role_by_id s role_id with
  | none => (false, s)
  | some role =>
    let ensured := ensure_permission_exists s permission
    let role' : Role := { role with permissions := insert ensured.1 role.permissions }
    (true, save_role ensured.2 role')

/-- Embedding of `RoleServices.remove_permission_from_role`: false when the role is not
found or the permission is not currently assigned; otherwise remove it,
persist the role, and delete the permission row when no role still uses
it. -/
def remove_permission_from_role (s : RoleStore) (role_id : RoleId)
    (permission : Permission) : Bool × RoleStore :=
  match find_role_by_id s role_id with
  | none => (false, s)
  | some role =>
    if permission ∈ role.permissions then
      let role' : Role := { role with permissions := role.permissions.erase permission }
      let s1 := save_role s role'
      if any_role_uses_permission s1 permission then (true, s1)
      else (true, ensure_permission_deleted s1 permission)
    else (false, s)

/-! ## Theorems -/

/-- C4: `Actor.has_any_scope(S)` is true iff the actor's granted scopes
intersect the required set non-emptily (OR-of-required admission); in
particular an actor holding only `users:self` is admitted by a check
requiring `{users, users:self}` but rejected by one requiring `{users}`
alone. -/
theorem has_any_scope_or_of_required :
    (∀ (a : Actor) (required : List UserScope),
        a.has_any_scope required = true ↔ ∃ sc ∈ a.scopes, sc ∈ required)
    ∧ Actor.has_any_scope
        { user_id := { value := "u" }, scopes := [.USER_READ_SELF] }
        [.USER_READ, .USER_READ_SELF] = true
    ∧ Actor.has_any_scope
        { user_id := { value := "u" }, scopes := [.USER_READ_SELF] }
        [.USER_READ] = false := by
  refine ⟨fun a required => ?_, by decide, by decide⟩
  simp only [Actor.has_any_scope, decide_eq_true_eq, Finset.Nonempty,
    Finset.mem_inter, List.mem_toFinset]

/-- C9 counterexample: for a permission with empty `name`, `full_name` is
the namespace followed by a trailing separator (`"users."`), not the
namespace alone (`"users"`), contradicting the claim's empty-name
exception. -/
theorem full_name_empty_name_counterexample :
    Permission.full_name { name := "", «namespace» := "users" } = "users."
    ∧ Permission.full_name { name := "", «namespace» := "users" } ≠ "users" := by
  constructor
  · rfl
  · decide

/-- C9 amended: `full_name` is `namespace ++ "." ++ name` in every case —
there is no empty-name exception; with an empty name the result carries a
trailing separator. -/
theorem full_name_eq_namespace_dot_name :
    (∀ p : Permission, p.full_name = p.«namespace» ++ "." ++ p.name)
    ∧ Permission.full_name { name := "", «namespace» := "users" } = "users." :=
  ⟨fun _ => rfl, rfl⟩

/-- C3: `create_token_pair` raises the identical error value — same
exception type (`ValueError`), same message — whether the email lookup
finds no user or the password fails to verify, so the two failure causes
are indistinguishable to the caller. -/
theorem create_token_pair_enumeration_resistance
    (cfg cfg' : TokenConfigurations) (checkpw checkpw' : String → String → Bool)
    (s s' : TokenStore) (fid fid' : RefreshTokenId) (ftok ftok' : String)
    (inp inp' : TokenPairInput) (T T' : Int) (u : TokenUser)
    (h1 : find_user_by_email s inp.email = none)
    (h2 : find_user_by_email s' inp'.email = some u)
    (h3 : checkpw' inp'.password u.password_hash = false) :
    create_token_pair cfg checkpw s fid ftok inp T
      = .error (.valueError "Incorrect username or password.")
    ∧ create_token_pair cfg' checkpw' s' fid' ftok' inp' T'
      = .error (.valueError "Incorrect username or password.") := by
  constructor
  · simp [create_token_pair, h1]
  · simp [create_token_pair, h2, verify_password, h3]

/-- C3 witness: concrete instance — an empty store (no such user) and a
store whose user's password does not verify produce the identical error. -/
theorem create_token_pair_enumeration_resistance_witness :
    create_token_pair
      { ALGORITHM := "HS256", SECRET_KEY := "k",
        REFRESH_TOKEN_TTL_DAYS := 7, ACCESS_TOKEN_TTL_SECONDS := 3600 }
      (fun _ _ => false) { refresh_tokens := [], users := [] }
      { value := "rid" } "opaque" { email := "a@b.c", password := "pw" } 0
      = .error (.valueError "Incorrect username or password.")
    ∧ create_token_pair
      { ALGORITHM := "HS256", SECRET_KEY := "k",
        REFRESH_TOKEN_TTL_DAYS := 7, ACCESS_TOKEN_TTL_SECONDS := 3600 }
      (fun _ _ => false)
      { refresh_tokens := [],
        users := [{ id := "uid", email := "a@b.c", password_hash := "h",
                    scopes := [] }] }
      { value := "rid" } "opaque" { email := "a@b.c", password := "pw" } 0
      = .error (.valueError "Incorrect username or password.") :=
  create_token_pair_enumeration_resistance
    { ALGORITHM := "HS256", SECRET_KEY := "k",
      REFRESH_TOKEN_TTL_DAYS := 7, ACCESS_TOKEN_TTL_SECONDS := 3600 }
    { ALGORITHM := "HS256", SECRET_KEY := "k",
      REFRESH_TOKEN_TTL_DAYS := 7, ACCESS_TOKEN_TTL_SECONDS := 3600 }
    (fun _ _ => false) (fun _ _ => false)
    { refresh_tokens := [], users := [] }
    { refresh_tokens := [],
      users := [{ id := "uid", email := "a@b.c", password_hash := "h",
                  scopes := [] }] }
    { value := "rid" } { value := "rid" } "opaque" "opaque"
    { email := "a@b.c", password := "pw" } { email := "a@b.c", password := "pw" }
    0 0
    { id := { value := "uid" }, scopes := [], password_hash := "h" }
    (by decide) (by decide) rfl

/-- C2 counterexample: an access token whose `exp` equals the validation
time is accepted — `get_user_from_access_token` resolves the user instead
of failing with an expired-token error, because the code's check is the
strict `datetime.now(UTC) > exp` (and jose's own check is the strict
`exp < now`). -/
theorem access_token_exp_equal_now_accepted :
    get_user_from_access_token
      { ALGORITHM := "HS256", SECRET_KEY := "secret",
        REFRESH_TOKEN_TTL_DAYS := 7, ACCESS_TOKEN_TTL_SECONDS := 3600 }
      { refresh_tokens := [{ id := { value := "rid" }, token := "opaque",
                             token_type := "refresh", expiration := 700,
                             user_id := "uid" }],
        users := [{ id := "uid", email := "a@b.c", password_hash := "h",
                    scopes := [] }] }
      100
      (jwt_encode { sub := "uid", rtk := some "rid", exp := some 100,
                    scopes := [] } "secret" "HS256")
      = .ok { id := { value := "uid" }, scopes := [], password_hash := "h" } := by
  rfl

/-- C2 amended: for an access token signed with the configured secret and
algorithm and carrying an `rtk` claim, validation fails with a `JWTError`
when `exp < now` (jose's expired-signature error), and for `now ≤ exp` —
including the boundary `exp == now` — the expiry checks pass and no
`JWTError` is produced (the outcome is then decided by the repository
lookup alone). -/
theorem access_token_expiry_boundary (cfg : TokenConfigurations)
    (s : TokenStore) (now e : Int) (sub rid : String) (scopes : List String) :
    (e < now →
      get_user_from_access_token cfg s now
        (jwt_encode { sub := sub, rtk := some rid, exp := some e,
                      scopes := scopes } cfg.SECRET_KEY cfg.ALGORITHM)
        = .error (.jwtError "Signature has expired."))
    ∧ (now ≤ e → ∀ m,
      get_user_from_access_token cfg s now
        (jwt_encode { sub := sub, rtk := some rid, exp := some e,
                      scopes := scopes } cfg.SECRET_KEY cfg.ALGORITHM)
        ≠ .error (.jwtError m)) := by
  constructor
  · intro h
    simp [get_user_from_access_token, jwt_decode, jwt_encode, h]
  · intro h m
    have h1 : ¬ e < now := not_lt.mpr h
    have h2 : ¬ now > e := not_lt.mpr h
    simp only [get_user_from_access_token, jwt_decode, jwt_encode]
    simp only [List.mem_singleton, and_self, if_true, h1, if_false, ite_false,
      if_neg h1, if_pos, and_true, true_and, eq_self_iff_true]
    simp [h2]
    cases find_user_by_refresh_token_id s { value := rid } <;> simp

/-- C2 witness: at `now = 100`, a token with `exp = 99` is rejected as
expired, and a token with `exp = 100` does not produce the expired-token
error. -/
theorem access_token_expiry_boundary_witness :
    get_user_from_access_token
      { ALGORITHM := "HS256", SECRET_KEY := "secret",
        REFRESH_TOKEN_TTL_DAYS := 7, ACCESS_TOKEN_TTL_SECONDS := 3600 }
      { refresh_tokens := [], users := [] } 100
      (jwt_encode { sub := "uid", rtk := some "rid", exp := some 99,
                    scopes := [] } "secret" "HS256")
      = .error (.jwtError "Signature has expired.")
    ∧ get_user_from_access_token
      { ALGORITHM := "HS256", SECRET_KEY := "secret",
        REFRESH_TOKEN_TTL_DAYS := 7, ACCESS_TOKEN_TTL_SECONDS := 3600 }
      { refresh_tokens := [], users := [] } 100
      (jwt_encode { sub := "uid", rtk := some "rid", exp := some 100,
                    scopes := [] } "secret" "HS256")
      ≠ .error (.jwtError "Access token has expired") :=
  ⟨(access_token_expiry_boundary
      { ALGORITHM := "HS256", SECRET_KEY := "secret",
        REFRESH_TOKEN_TTL_DAYS := 7, ACCESS_TOKEN_TTL_SECONDS := 3600 }
      { refresh_tokens := [], users := [] } 100 99 "uid" "rid" []).1
      (by decide),
   (access_token_expiry_boundary
      { ALGORITHM := "HS256", SECRET_KEY := "secret",
        REFRESH_TOKEN_TTL_DAYS := 7, ACCESS_TOKEN_TTL_SECONDS := 3600 }
      { refresh_tokens := [], users := [] } 100 100 "uid" "rid" []).2
      (by decide) "Access token has expired"⟩

/-- C5: `revoke_refresh_token` on a token string unknown to the store
raises a `ValueError` (never silent success); on a known token it succeeds
and the `(user_id, token)` pair is removed from the store (exactly the
rows matching both the resolved owner's id and the token string are
deleted). -/
theorem revoke_refresh_token_spec (s : TokenStore) (t : String) :
    (find_user_by_refresh_token s t = none →
      ∃ m, revoke_refresh_token s t = .error (.valueError m))
    ∧ (∀ u, find_user_by_refresh_token s t = some u →
        ∃ s', revoke_refresh_token s t = .ok s'
          ∧ s'.users = s.users
          ∧ s'.refresh_tokens = s.refresh_tokens.filter
              (fun r => !decide (r.user_id = u.id.value ∧ r.token = t))
          ∧ ∀ r ∈ s'.refresh_tokens, ¬(r.user_id = u.id.value ∧ r.token = t)) := by
  constructor
  · intro h
    refine ⟨"Error revoking refresh token: Refresh token not found", ?_⟩
    simp only [revoke_refresh_token, h]
    rfl
  · intro u h
    obtain ⟨r0, hr0, hmap⟩ := Option.bind_eq_some.mp h
    obtain ⟨w, hw, hu⟩ := Option.map_eq_some'.mp hmap
    have hr0t : r0.token = t := by
      have := List.find?_some hr0
      simpa using this
    have hr0mem : r0 ∈ s.refresh_tokens := List.mem_of_find?_eq_some hr0
    have hwid : w.id = r0.user_id := by
      have := List.find?_some hw
      simpa using this
    have huid : u.id.value = r0.user_id := by
      subst hu
      simpa [map_to_token_user] using hwid
    have hmem : r0 ∈ s.refresh_tokens.filter
        (fun r => decide (r.user_id = u.id.value ∧ r.token = t)) := by
      rw [List.mem_filter]
      refine ⟨hr0mem, ?_⟩
      simp [huid.symm, hr0t]
    have hne : ¬ (s.refresh_tokens.filter
        (fun r => decide (r.user_id = u.id.value ∧ r.token = t))).length = 0 := by
      intro hlen
      rw [List.length_eq_zero] at hlen
      rw [hlen] at hmem
      exact absurd hmem (List.not_mem_nil r0)
    have hrem : remove_refresh_token s u.id t
        = .ok ⟨s.refresh_tokens.filter
            (fun r => !decide (r.user_id = u.id.value ∧ r.token = t)), s.users⟩ := by
      simp only [remove_refresh_token]
      rw [if_neg hne]
    refine ⟨⟨s.refresh_tokens.filter
        (fun r => !decide (r.user_id = u.id.value ∧ r.token = t)), s.users⟩,
      ?_, rfl, rfl, ?_⟩
    · simp only [revoke_refresh_token, h, hrem]
    · intro r hr
      rw [List.mem_filter] at hr
      have h2 := hr.2
      simp only [Bool.not_eq_true', decide_eq_false_iff_not] at h2
      exact h2

/-- C5 witness: on the empty store revocation of `"tok"` errors; on a store
holding the pair `("uid", "tok")` revocation succeeds and removes it. -/
theorem revoke_refresh_token_spec_witness :
    (∃ m, revoke_refresh_token { refresh_tokens := [], users := [] } "tok"
        = .error (.valueError m))
    ∧ (∃ s',
        revoke_refresh_token
          { refresh_tokens := [{ id := { value := "rid" }, token := "tok",
                                 token_type := "refresh", expiration := 700,
                                 user_id := "uid" }],
            users := [{ id := "uid", email := "a@b.c", password_hash := "h",
                        scopes := [] }] } "tok"
          = .ok s'
        ∧ s'.users = [{ id := "uid", email := "a@b.c", password_hash := "h",
                        scopes := [] }]
        ∧ s'.refresh_tokens
            = [{ id := { value := "rid" }, token := "tok",
                 token_type := "refresh", expiration := 700,
                 user_id := "uid" }].filter
                (fun r => !decide (r.user_id = "uid" ∧ r.token = "tok"))
        ∧ ∀ r ∈ s'.refresh_tokens, ¬(r.user_id = "uid" ∧ r.token = "tok")) :=
  ⟨(revoke_refresh_token_spec { refresh_tokens := [], users := [] } "tok").1
      (by decide),
   (revoke_refresh_token_spec
      { refresh_tokens := [{ id := { value := "rid" }, token := "tok",
                             token_type := "refresh", expiration := 700,
                             user_id := "uid" }],
        users := [{ id := "uid", email := "a@b.c", password_hash := "h",
                    scopes := [] }] } "tok").2
      { id := { value := "uid" }, scopes := [], password_hash := "h" }
      (by decide)⟩

/-- Evaluation of `find?` over a list extended with one element, when nothing in the
prefix matches. -/
theorem find?_append_of_none {α : Type} (p : α → Bool) (l : List α) (x : α)
    (h : l.find? p = none) :
    (l ++ [x]).find? p = if p x then some x else none := by
  rw [List.find?_append, h]
  cases hpx : p x <;> simp [List.find?, hpx]

/-- C1: composing `create_refresh_token`, `create_access_token` and
`get_user_from_access_token` (validated at the issuing timestamp) resolves
a user whose id equals the original user's id, provided the token
repository echoes correctly: the fresh refresh-token id collides with no
stored row, and the user table resolves `U.id` to a stored row. -/
theorem token_round_trip (cfg : TokenConfigurations) (s : TokenStore)
    (fresh_id : RefreshTokenId) (fresh_token : String) (U : TokenUser) (T : Int)
    (w : StoredUser)
    (hTTL : 0 ≤ cfg.ACCESS_TOKEN_TTL_SECONDS)
    (hfresh : ∀ r ∈ s.refresh_tokens, r.id ≠ fresh_id)
    (hw : s.users.find? (fun v => decide (v.id = U.id.value)) = some w) :
    ∃ v, get_user_from_access_token cfg
        (create_refresh_token cfg s fresh_id fresh_token U T).2 T
        (create_access_token cfg U
          (create_refresh_token cfg s fresh_id fresh_token U T).1 T).token
      = .ok v
    ∧ v.id = U.id := by
  have heta : RefreshTokenId.mk fresh_id.value = fresh_id := rfl
  have hnotlt : ¬ (T + cfg.ACCESS_TOKEN_TTL_SECONDS < T) := by omega
  have hnotgt : ¬ (T > T + cfg.ACCESS_TOKEN_TTL_SECONDS) := by omega
  have hpre : s.refresh_tokens.find? (fun r => decide (r.id = fresh_id)) = none := by
    rw [List.find?_eq_none]
    intro r hr
    simp [hfresh r hr]
  refine ⟨map_to_token_user w, ?_, ?_⟩
  · simp only [create_refresh_token, create_access_token, save_refresh_token,
      jwt_encode, get_user_from_access_token, jwt_decode,
      find_user_by_refresh_token_id, heta]
    simp [hnotlt, hnotgt, hw, heta, hpre]
  · have hwid : w.id = U.id.value := by
      simpa using List.find?_some hw
    show UserId.mk w.id = U.id
    rw [hwid]

/-- C1 witness: the round trip at a concrete configuration, store, user and
timestamp resolves the original user id. -/
theorem token_round_trip_witness :
    ∃ v, get_user_from_access_token
        { ALGORITHM := "HS256", SECRET_KEY := "secret",
          REFRESH_TOKEN_TTL_DAYS := 7, ACCESS_TOKEN_TTL_SECONDS := 3600 }
        (create_refresh_token
          { ALGORITHM := "HS256", SECRET_KEY := "secret",
            REFRESH_TOKEN_TTL_DAYS := 7, ACCESS_TOKEN_TTL_SECONDS := 3600 }
          { refresh_tokens := [],
            users := [{ id := "uid", email := "a@b.c", password_hash := "h",
                        scopes := ["users"] }] }
          { value := "rid" } "opaque"
          { id := { value := "uid" }, scopes := ["users"], password_hash := "h" }
          0).2
        0
        (create_access_token
          { ALGORITHM := "HS256", SECRET_KEY := "secret",
            REFRESH_TOKEN_TTL_DAYS := 7, ACCESS_TOKEN_TTL_SECONDS := 3600 }
          { id := { value := "uid" }, scopes := ["users"], password_hash := "h" }
          (create_refresh_token
            { ALGORITHM := "HS256", SECRET_KEY := "secret",
              REFRESH_TOKEN_TTL_DAYS := 7, ACCESS_TOKEN_TTL_SECONDS := 3600 }
            { refresh_tokens := [],
              users := [{ id := "uid", email := "a@b.c", password_hash := "h",
                          scopes := ["users"] }] }
            { value := "rid" } "opaque"
            { id := { value := "uid" }, scopes := ["users"], password_hash := "h" }
            0).1
          0).token
      = .ok v
    ∧ v.id = { value := "uid" } :=
  token_round_trip
    { ALGORITHM := "HS256", SECRET_KEY := "secret",
      REFRESH_TOKEN_TTL_DAYS := 7, ACCESS_TOKEN_TTL_SECONDS := 3600 }
    { refresh_tokens := [],
      users := [{ id := "uid", email := "a@b.c", password_hash := "h",
                  scopes := ["users"] }] }
    { value := "rid" } "opaque"
    { id := { value := "uid" }, scopes := ["users"], password_hash := "h" }
    0
    { id := "uid", email := "a@b.c", password_hash := "h", scopes := ["users"] }
    (by decide) (by simp) (by decide)

/-- C10: at the authorization boundary, scope strings outside the closed
`UserScope` enumeration are silently discarded: a validly signed,
unexpired token never produces a 401 from its scope strings (the result is
the actor with the filtered scope list, or a 403), and a valid token
carrying only unrecognized scope strings yields an empty scope list and
fails every non-empty required-scope check with the 403
insufficient-scope rejection, not the 401 invalid-token rejection. -/
theorem unknown_scopes_discarded_insufficient (cfg : TokenConfigurations)
    (claims : Claims) (now : Int) (required : List UserScope)
    (hval : ∀ e, claims.exp = some e → ¬ e < now) :
    (middleware_has_any_scope cfg required now
        (jwt_encode claims cfg.SECRET_KEY cfg.ALGORITHM)
      = .ok { user_id := { value := claims.sub },
              scopes := claims.scopes.filterMap userScopeOfValue }
     ∨ ∃ d, middleware_has_any_scope cfg required now
        (jwt_encode claims cfg.SECRET_KEY cfg.ALGORITHM)
      = .error { status_code := 403, detail := d })
    ∧ ((∀ str ∈ claims.scopes, userScopeOfValue str = none) → required ≠ [] →
      claims.scopes.filterMap userScopeOfValue = []
      ∧ ∃ d, middleware_has_any_scope cfg required now
          (jwt_encode claims cfg.SECRET_KEY cfg.ALGORITHM)
        = .error { status_code := 403, detail := d }) := by
  have hdec : jwt_decode (jwt_encode claims cfg.SECRET_KEY cfg.ALGORITHM)
      cfg.SECRET_KEY [cfg.ALGORITHM] now = .ok claims := by
    cases hexp : claims.exp with
    | none => simp [jwt_decode, jwt_encode, hexp]
    | some e => simp [jwt_decode, jwt_encode, hexp, hval e hexp]
  constructor
  · by_cases hb : Actor.has_any_scope
        { user_id := { value := claims.sub },
          scopes := claims.scopes.filterMap userScopeOfValue } required = true
    · left
      simp [middleware_has_any_scope, hdec, hb]
    · right
      exact ⟨_, by simp only [middleware_has_any_scope, hdec]; rw [if_neg hb]⟩
  · intro hscopes hreq
    have hnil : claims.scopes.filterMap userScopeOfValue = [] := by
      rw [List.filterMap_eq_nil_iff]
      exact hscopes
    refine ⟨hnil, ?_⟩
    have hb : Actor.has_any_scope
        { user_id := { value := claims.sub },
          scopes := claims.scopes.filterMap userScopeOfValue } required = false := by
      rw [hnil]
      simp [Actor.has_any_scope]
    exact ⟨_, by
      simp only [middleware_has_any_scope, hdec]
      rw [if_neg (by rw [hb]; exact Bool.false_ne_true)]⟩

/-- C10 witness: a well-signed unexpired token whose only scope string is
`"bogus"` is rejected by a check requiring `users` with the 403
insufficient-scope error, and its filtered scope list is empty. -/
theorem unknown_scopes_discarded_insufficient_witness :
    ((["bogus"] : List String).filterMap userScopeOfValue = [])
    ∧ ∃ d, middleware_has_any_scope
        { ALGORITHM := "HS256", SECRET_KEY := "secret",
          REFRESH_TOKEN_TTL_DAYS := 7, ACCESS_TOKEN_TTL_SECONDS := 3600 }
        [.USER_READ] 0
        (jwt_encode { sub := "uid", rtk := none, exp := some 10,
                      scopes := ["bogus"] } "secret" "HS256")
      = .error { status_code := 403, detail := d } :=
  (unknown_scopes_discarded_insufficient
    { ALGORITHM := "HS256", SECRET_KEY := "secret",
      REFRESH_TOKEN_TTL_DAYS := 7, ACCESS_TOKEN_TTL_SECONDS := 3600 }
    { sub := "uid", rtk := none, exp := some 10, scopes := ["bogus"] }
    0 [.USER_READ]
    (fun e he => by cases he; decide)).2
    (by decide) (by decide)

/-- A permission found by (namespace, name) is exactly that pair. -/
theorem find_permission_eq (s : RoleStore) (ns nm : String) (e : Permission)
    (h : find_permission s ns nm = some e) :
    e = { name := nm, «namespace» := ns } := by
  have h2 := List.find?_some h
  simp only [decide_eq_true_eq] at h2
  cases e
  simp only [Permission.mk.injEq]
  exact ⟨h2.2, h2.1⟩

/-- The helper `ensure_permission_exists` returns a permission equal (as a
(namespace, name) value) to its argument. -/
theorem ensure_permission_exists_fst (s : RoleStore) (p : Permission) :
    (ensure_permission_exists s p).1 = p := by
  unfold ensure_permission_exists
  cases h : find_permission s p.«namespace» p.name with
  | none => rfl
  | some e => exact find_permission_eq s _ _ e h

/-- The helper `ensure_permission_exists` never changes the role rows. -/
theorem ensure_permission_exists_roles (s : RoleStore) (p : Permission) :
    (ensure_permission_exists s p).2.roles = s.roles := by
  unfold ensure_permission_exists
  cases h : find_permission s p.«namespace» p.name <;> rfl

/-- After `ensure_permission_exists`, the permission is found. -/
theorem find_permission_ensure (s : RoleStore) (p : Permission) :
    find_permission (ensure_permission_exists s p).2 p.«namespace» p.name
      = some p := by
  unfold ensure_permission_exists
  cases h : find_permission s p.«namespace» p.name with
  | some e =>
    rw [h]
    exact congrArg some (find_permission_eq s _ _ e h)
  | none =>
    have h' : s.permissions.find?
        (fun q => decide (q.«namespace» = p.«namespace» ∧ q.name = p.name))
        = none := h
    show (s.permissions ++ [p]).find?
        (fun q => decide (q.«namespace» = p.«namespace» ∧ q.name = p.name))
      = some p
    rw [find?_append_of_none _ _ _ h']
    simp

/-- Evaluation of `find?` on a list whose id-matching elements were all replaced by `x`. -/
theorem find?_map_replace (l : List Role) (rid : RoleId) (x : Role)
    (hx : x.id = rid) :
    (l.map (fun r => if r.id = rid then x else r)).find?
        (fun r => decide (r.id = rid))
      = if l.any (fun r => decide (r.id = rid)) then some x else none := by
  induction l with
  | nil => rfl
  | cons a l ih =>
    by_cases ha : a.id = rid
    · simp [List.find?_cons, ha, hx]
    · simp [List.find?_cons, List.any_cons, ha, ih]

/-- Replacing id-matches by `x` is the identity when every id-match already
is `x`. -/
theorem map_replace_self (l : List Role) (rid : RoleId) (x : Role)
    (h : ∀ r ∈ l, r.id = rid → r = x) :
    l.map (fun r => if r.id = rid then x else r) = l := by
  conv_rhs => rw [← List.map_id l]
  apply List.map_congr_left
  intro a ha
  by_cases hid : a.id = rid
  · simp only [if_pos hid, id]
    exact (h a ha hid).symm
  · simp [hid]


/-- C6: assigning the same (namespace, name) permission to a role twice is
idempotent — the store after the second `assign_permission_to_role` call
equals the store after the first — and starting from a role with no
permissions the role ends up with exactly one. -/
theorem assign_permission_to_role_idempotent (s : RoleStore) (rid : RoleId)
    (p : Permission) :
    (assign_permission_to_role (assign_permission_to_role s rid p).2 rid p).2
      = (assign_permission_to_role s rid p).2
    ∧ (∀ role, find_role_by_id s rid = some role → role.permissions = ∅ →
        ∃ role', find_role_by_id (assign_permission_to_role s rid p).2 rid
            = some role'
          ∧ role'.permissions.card = 1) := by
  cases hrole : find_role_by_id s rid with
  | none =>
    constructor
    · simp [assign_permission_to_role, hrole]
    · intro role hr
      exact absurd hr (by simp)
  | some role =>
    obtain ⟨rid0, rname, rperms⟩ := role
    have hrid : rid0 = rid := by simpa using List.find?_some hrole
    subst hrid
    have hmem : (⟨rid0, rname, rperms⟩ : Role) ∈ s.roles :=
      List.mem_of_find?_eq_some hrole
    have hfst := ensure_permission_exists_fst s p
    have hroles := ensure_permission_exists_roles s p
    have hanys : s.roles.any (fun r => decide (r.id = rid0)) = true := by
      rw [List.any_eq_true]
      exact ⟨⟨rid0, rname, rperms⟩, hmem, by simp⟩
    have hassign1 : assign_permission_to_role s rid0 p
        = (true, save_role (ensure_permission_exists s p).2
            ⟨rid0, rname, insert p rperms⟩) := by
      simp only [assign_permission_to_role, hrole, hfst]
    have hsave1 : save_role (ensure_permission_exists s p).2
        ⟨rid0, rname, insert p rperms⟩
        = ⟨s.roles.map (fun r =>
              if r.id = rid0 then ⟨rid0, rname, insert p rperms⟩ else r),
           (ensure_permission_exists s p).2.permissions⟩ := by
      unfold save_role
      dsimp only
      rw [hroles, if_pos hanys]
    have hS1roles : (assign_permission_to_role s rid0 p).2.roles
        = s.roles.map (fun r =>
            if r.id = rid0 then ⟨rid0, rname, insert p rperms⟩ else r) := by
      rw [hassign1, hsave1]
    have hS1perms : (assign_permission_to_role s rid0 p).2.permissions
        = (ensure_permission_exists s p).2.permissions := by
      rw [hassign1, hsave1]
    have hfind1 : find_role_by_id (assign_permission_to_role s rid0 p).2 rid0
        = some ⟨rid0, rname, insert p rperms⟩ := by
      unfold find_role_by_id
      rw [hS1roles]
      rw [find?_map_replace s.roles rid0 ⟨rid0, rname, insert p rperms⟩ rfl]
      rw [if_pos hanys]
    have hperm1 : find_permission (assign_permission_to_role s rid0 p).2
        p.«namespace» p.name = some p := by
      unfold find_permission
      rw [hS1perms]
      exact find_permission_ensure s p
    have hens2 : ensure_permission_exists
        (assign_permission_to_role s rid0 p).2 p
        = (p, (assign_permission_to_role s rid0 p).2) := by
      unfold ensure_permission_exists
      rw [hperm1]
    have hany1 : (assign_permission_to_role s rid0 p).2.roles.any
        (fun r => decide (r.id = rid0)) = true := by
      rw [List.any_eq_true]
      exact ⟨⟨rid0, rname, insert p rperms⟩,
        List.mem_of_find?_eq_some hfind1, by simp⟩
    have hsel : ∀ r ∈ (assign_permission_to_role s rid0 p).2.roles,
        r.id = rid0 → r = ⟨rid0, rname, insert p rperms⟩ := by
      simp only [hS1roles]
      intro r hr hid
      obtain ⟨r0, hr0mem, hr0⟩ := List.mem_map.mp hr
      by_cases h0 : r0.id = rid0
      · rw [if_pos h0] at hr0
        exact hr0.symm
      · rw [if_neg h0] at hr0
        subst hr0
        exact absurd hid h0
    have hsave2 : save_role (assign_permission_to_role s rid0 p).2
        ⟨rid0, rname, insert p rperms⟩
        = (assign_permission_to_role s rid0 p).2 := by
      unfold save_role
      dsimp only
      rw [if_pos hany1]
      rw [map_replace_self _ rid0 _ hsel]
    have key : ∀ s2 : RoleStore,
        find_role_by_id s2 rid0 = some ⟨rid0, rname, insert p rperms⟩ →
        ensure_permission_exists s2 p = (p, s2) →
        save_role s2 ⟨rid0, rname, insert p rperms⟩ = s2 →
        (assign_permission_to_role s2 rid0 p).2 = s2 := by
      intro s2 hf he hs
      simp only [assign_permission_to_role, hf, he]
      rw [Finset.insert_idem]
      exact hs
    constructor
    · exact key _ hfind1 hens2 hsave2
    · intro role2 h2 hempty
      have hr2 : role2 = ⟨rid0, rname, rperms⟩ := (Option.some.inj h2).symm
      subst hr2
      refine ⟨⟨rid0, rname, insert p rperms⟩, hfind1, ?_⟩
      have hperms : rperms = ∅ := hempty
      show (insert p rperms).card = 1
      rw [hperms]
      simp

/-- C6 witness: on a store holding one role with no permissions, the second
assignment leaves the store unchanged and the role holds exactly one
permission. -/
theorem assign_permission_to_role_idempotent_witness :
    (assign_permission_to_role
        (assign_permission_to_role
          { roles := [{ id := { value := "r1" }, name := "Admin",
                        permissions := ∅ }],
            permissions := [] }
          { value := "r1" } { name := "create", «namespace» := "users" }).2
        { value := "r1" } { name := "create", «namespace» := "users" }).2
      = (assign_permission_to_role
          { roles := [{ id := { value := "r1" }, name := "Admin",
                        permissions := ∅ }],
            permissions := [] }
          { value := "r1" } { name := "create", «namespace» := "users" }).2
    ∧ ∃ role', find_role_by_id
        (assign_permission_to_role
          { roles := [{ id := { value := "r1" }, name := "Admin",
                        permissions := ∅ }],
            permissions := [] }
          { value := "r1" } { name := "create", «namespace» := "users" }).2
        { value := "r1" } = some role'
      ∧ role'.permissions.card = 1 :=
  ⟨(assign_permission_to_role_idempotent
      { roles := [{ id := { value := "r1" }, name := "Admin",
                    permissions := ∅ }],
        permissions := [] }
      { value := "r1" } { name := "create", «namespace» := "users" }).1,
   (assign_permission_to_role_idempotent
      { roles := [{ id := { value := "r1" }, name := "Admin",
                    permissions := ∅ }],
        permissions := [] }
      { value := "r1" } { name := "create", «namespace» := "users" }).2
      { id := { value := "r1" }, name := "Admin", permissions := ∅ }
      rfl rfl⟩

/-- C7: `remove_permission_from_role` returns false with no state change
when the role is missing or the permission is not assigned; otherwise it
removes the permission from the role, persists the role, and deletes the
permission row exactly when the post-removal scan finds no role still
using it — in particular the permission store is untouched whenever some
other role still holds the permission. -/
theorem remove_permission_from_role_spec (s : RoleStore) (rid : RoleId)
    (p : Permission) :
    (find_role_by_id s rid = none →
      remove_permission_from_role s rid p = (false, s))
    ∧ (∀ role, find_role_by_id s rid = some role → p ∉ role.permissions →
        remove_permission_from_role s rid p = (false, s))
    ∧ (∀ role, find_role_by_id s rid = some role → p ∈ role.permissions →
        ∃ s', remove_permission_from_role s rid p = (true, s')
          ∧ (∃ role', find_role_by_id s' rid = some role'
              ∧ role'.permissions = role.permissions.erase p)
          ∧ (any_role_uses_permission
              (save_role s { role with permissions := role.permissions.erase p })
              p = false → p ∉ s'.permissions)
          ∧ (any_role_uses_permission
              (save_role s { role with permissions := role.permissions.erase p })
              p = true → s'.permissions = s.permissions))
    ∧ (∀ role r2, find_role_by_id s rid = some role → p ∈ role.permissions →
        r2 ∈ s.roles → r2.id ≠ rid → p ∈ r2.permissions →
        (remove_permission_from_role s rid p).2.permissions = s.permissions) := by
  cases hrole : find_role_by_id s rid with
  | none =>
    refine ⟨fun _ => by simp [remove_permission_from_role, hrole],
      fun role hr => absurd hr (by simp),
      fun role hr => absurd hr (by simp),
      fun role r2 hr => absurd hr (by simp)⟩
  | some role =>
    obtain ⟨rid0, rname, rperms⟩ := role
    have hrid : rid0 = rid := by simpa using List.find?_some hrole
    subst hrid
    have hmem : (⟨rid0, rname, rperms⟩ : Role) ∈ s.roles :=
      List.mem_of_find?_eq_some hrole
    have hanys : s.roles.any (fun r => decide (r.id = rid0)) = true := by
      rw [List.any_eq_true]
      exact ⟨⟨rid0, rname, rperms⟩, hmem, by simp⟩
    have hsave1 : save_role s ⟨rid0, rname, rperms.erase p⟩
        = ⟨s.roles.map (fun r =>
              if r.id = rid0 then ⟨rid0, rname, rperms.erase p⟩ else r),
           s.permissions⟩ := by
      unfold save_role
      dsimp only
      rw [if_pos hanys]
    have hfindafter : find_role_by_id (save_role s ⟨rid0, rname, rperms.erase p⟩)
        rid0 = some ⟨rid0, rname, rperms.erase p⟩ := by
      unfold find_role_by_id
      rw [hsave1]
      show (s.roles.map (fun r =>
          if r.id = rid0 then ⟨rid0, rname, rperms.erase p⟩ else r)).find?
          (fun r => decide (r.id = rid0)) = _
      rw [find?_map_replace s.roles rid0 ⟨rid0, rname, rperms.erase p⟩ rfl]
      rw [if_pos hanys]
    refine ⟨fun h => absurd h (by simp), ?_, ?_, ?_⟩
    · intro role2 h2 hp
      have hr2 : role2 = ⟨rid0, rname, rperms⟩ := (Option.some.inj h2).symm
      subst hr2
      have hp' : p ∉ rperms := hp
      simp only [remove_permission_from_role, hrole]
      rw [if_neg hp']
    · intro role2 h2 hp
      have hr2 : role2 = ⟨rid0, rname, rperms⟩ := (Option.some.inj h2).symm
      subst hr2
      have hp' : p ∈ rperms := hp
      by_cases hscan : any_role_uses_permission
          (save_role s ⟨rid0, rname, rperms.erase p⟩) p = true
      · have hrem : remove_permission_from_role s rid0 p
            = (true, save_role s ⟨rid0, rname, rperms.erase p⟩) := by
          simp only [remove_permission_from_role, hrole]
          rw [if_pos hp']
          rw [if_pos hscan]
        refine ⟨save_role s ⟨rid0, rname, rperms.erase p⟩, hrem,
          ⟨⟨rid0, rname, rperms.erase p⟩, hfindafter, rfl⟩, ?_, ?_⟩
        · intro hfalse
          rw [hfalse] at hscan
          exact absurd hscan (by simp)
        · intro _
          rw [hsave1]
      · have hrem : remove_permission_from_role s rid0 p
            = (true, ensure_permission_deleted
                (save_role s ⟨rid0, rname, rperms.erase p⟩) p) := by
          simp only [remove_permission_from_role, hrole]
          rw [if_pos hp']
          rw [if_neg hscan]
        refine ⟨ensure_permission_deleted
            (save_role s ⟨rid0, rname, rperms.erase p⟩) p, hrem,
          ⟨⟨rid0, rname, rperms.erase p⟩, ?_, rfl⟩, ?_, ?_⟩
        · show find_role_by_id _ rid0 = _
          unfold find_role_by_id ensure_permission_deleted
          exact hfindafter
        · intro _ hmem'
          unfold ensure_permission_deleted at hmem'
          rw [List.mem_filter] at hmem'
          have h2 := hmem'.2
          simp at h2
        · intro htrue
          exact absurd htrue hscan
    · intro role2 r2 h2 hp hmemr2 hne hp2
      have hr2 : role2 = ⟨rid0, rname, rperms⟩ := (Option.some.inj h2).symm
      subst hr2
      have hp' : p ∈ rperms := hp
      have hr2mem : r2 ∈ (save_role s ⟨rid0, rname, rperms.erase p⟩).roles := by
        rw [hsave1]
        show r2 ∈ s.roles.map _
        rw [List.mem_map]
        exact ⟨r2, hmemr2, by rw [if_neg hne]⟩
      have hscan : any_role_uses_permission
          (save_role s ⟨rid0, rname, rperms.erase p⟩) p = true := by
        unfold any_role_uses_permission
        rw [List.any_eq_true]
        exact ⟨r2, hr2mem, by simpa using hp2⟩
      have hrem : remove_permission_from_role s rid0 p
          = (true, save_role s ⟨rid0, rname, rperms.erase p⟩) := by
        simp only [remove_permission_from_role, hrole]
        rw [if_pos hp']
        rw [if_pos hscan]
      rw [hrem]
      show (save_role s ⟨rid0, rname, rperms.erase p⟩).permissions = _
      rw [hsave1]

/-- C7 witness: removing a permission held only by one role deletes it from
the permission store; removing it from one of two sharing roles keeps the
store; removing from a missing role returns false unchanged. -/
theorem remove_permission_from_role_spec_witness :
    (∃ s', remove_permission_from_role
        { roles := [{ id := { value := "r1" }, name := "A",
                      permissions := {{ name := "create", «namespace» := "users" }} }],
          permissions := [{ name := "create", «namespace» := "users" }] }
        { value := "r1" } { name := "create", «namespace» := "users" }
        = (true, s')
      ∧ ({ name := "create", «namespace» := "users" } : Permission)
          ∉ s'.permissions)
    ∧ (remove_permission_from_role
        { roles := [{ id := { value := "r1" }, name := "A",
                      permissions := {{ name := "create", «namespace» := "users" }} },
                    { id := { value := "r2" }, name := "B",
                      permissions := {{ name := "create", «namespace» := "users" }} }],
          permissions := [{ name := "create", «namespace» := "users" }] }
        { value := "r1" } { name := "create", «namespace» := "users" }).2.permissions
      = [{ name := "create", «namespace» := "users" }]
    ∧ remove_permission_from_role
        { roles := [], permissions := [] }
        { value := "r9" } { name := "create", «namespace» := "users" }
      = (false, { roles := [], permissions := [] }) := by
  refine ⟨?_, ?_, ?_⟩
  · obtain ⟨s', h1, _, h3, _⟩ :=
      (remove_permission_from_role_spec
        { roles := [{ id := { value := "r1" }, name := "A",
                      permissions := {{ name := "create", «namespace» := "users" }} }],
          permissions := [{ name := "create", «namespace» := "users" }] }
        { value := "r1" } { name := "create", «namespace» := "users" }).2.2.1
        { id := { value := "r1" }, name := "A",
          permissions := {{ name := "create", «namespace» := "users" }} }
        rfl (by decide)
    exact ⟨s', h1, h3 (by decide)⟩
  · exact (remove_permission_from_role_spec
        { roles := [{ id := { value := "r1" }, name := "A",
                      permissions := {{ name := "create", «namespace» := "users" }} },
                    { id := { value := "r2" }, name := "B",
                      permissions := {{ name := "create", «namespace» := "users" }} }],
          permissions := [{ name := "create", «namespace» := "users" }] }
        { value := "r1" } { name := "create", «namespace» := "users" }).2.2.2
        { id := { value := "r1" }, name := "A",
          permissions := {{ name := "create", «namespace» := "users" }} }
        { id := { value := "r2" }, name := "B",
          permissions := {{ name := "create", «namespace» := "users" }} }
        rfl (by decide) (by decide) (by decide) (by decide)
  · exact (remove_permission_from_role_spec
        { roles := [], permissions := [] }
        { value := "r9" } { name := "create", «namespace» := "users" }).1 rfl

/-- C8 counterexample: `create_role` on the permission string `"a.b.c"`
does not split on the first `.` into namespace `"a"` and name `"b.c"` —
Python's `namespace, name = perm.split(".")` unpacks three pieces and
raises a `ValueError`, so the call errors out. -/
theorem create_role_multi_dot_counterexample :
    create_role { roles := [], permissions := [] } { value := "r1" } "Admin"
      ["a.b.c"]
      = .error (.valueError "too many values to unpack (expected 2)") := by
  rfl

/-- C8 amended: each permission string is split on every `.` and must yield
exactly two pieces (namespace, name); with exactly one dot an existing
permission with that pair is reused and a new one is created otherwise,
while a string splitting into more or fewer than two pieces makes
`create_role` raise the tuple-unpacking `ValueError` (not a
namespace-prefix split). -/
theorem create_role_split_spec (s : RoleStore) (fresh_id : RoleId)
    (input_name : String) (perm : String) (ns nm : String)
    (rest : List String) :
    (py_split_dot perm = [ns, nm] →
      ∀ e, find_permission s ns nm = some e →
        create_role s fresh_id input_name [perm]
          = .ok (⟨fresh_id, input_name, {e}⟩,
                 save_role s ⟨fresh_id, input_name, {e}⟩))
    ∧ (py_split_dot perm = [ns, nm] →
      find_permission s ns nm = none →
        create_role s fresh_id input_name [perm]
          = .ok (⟨fresh_id, input_name, {⟨nm, ns⟩}⟩,
                 save_role
                   { s with permissions := s.permissions ++ [⟨nm, ns⟩] }
                   ⟨fresh_id, input_name, {⟨nm, ns⟩}⟩))
    ∧ ((py_split_dot perm).length ≠ 2 →
        create_role s fresh_id input_name (perm :: rest)
          = .error (unpack2_error (py_split_dot perm).length)) := by
  refine ⟨?_, ?_, ?_⟩
  · intro hsplit e hfind
    simp [create_role, create_role_step, hsplit, hfind]
  · intro hsplit hfind
    simp [create_role, create_role_step, ensure_permission_exists, hsplit, hfind]
  · intro hlen
    have hstep : create_role_step ((∅ : Finset Permission), s) perm
        = .error (unpack2_error (py_split_dot perm).length) := by
      rcases hsplit : py_split_dot perm with _ | ⟨a, _ | ⟨b, _ | ⟨c, t⟩⟩⟩
      · simp [create_role_step, hsplit]
      · simp [create_role_step, hsplit]
      · rw [hsplit] at hlen
        exact absurd rfl hlen
      · simp [create_role_step, hsplit]
    simp only [create_role, List.foldlM_cons, hstep]
    rfl

/-- C8 witness: with `"users.create"` an existing (users, create) permission
is reused, a missing one is created, and `"a.b.c"` raises the unpacking
error. -/
theorem create_role_split_spec_witness :
    create_role
      { roles := [], permissions := [{ name := "create", «namespace» := "users" }] }
      { value := "r1" } "Admin" ["users.create"]
      = .ok (⟨{ value := "r1" }, "Admin",
              {{ name := "create", «namespace» := "users" }}⟩,
             save_role
               { roles := [],
                 permissions := [{ name := "create", «namespace» := "users" }] }
               ⟨{ value := "r1" }, "Admin",
                {{ name := "create", «namespace» := "users" }}⟩)
    ∧ create_role { roles := [], permissions := [] }
        { value := "r1" } "Admin" ["users.create"]
      = .ok (⟨{ value := "r1" }, "Admin",
              {{ name := "create", «namespace» := "users" }}⟩,
             save_role
               { roles := [],
                 permissions := [{ name := "create", «namespace» := "users" }] }
               ⟨{ value := "r1" }, "Admin",
                {{ name := "create", «namespace» := "users" }}⟩)
    ∧ create_role { roles := [], permissions := [] }
        { value := "r1" } "Admin" ["a.b.c"]
      = .error (unpack2_error 3) :=
  ⟨(create_role_split_spec
      { roles := [], permissions := [{ name := "create", «namespace» := "users" }] }
      { value := "r1" } "Admin" "users.create" "users" "create" []).1
      (by decide) { name := "create", «namespace» := "users" } rfl,
   (create_role_split_spec { roles := [], permissions := [] }
      { value := "r1" } "Admin" "users.create" "users" "create" []).2.1
      (by decide) rfl,
   (create_role_split_spec { roles := [], permissions := [] }
      { value := "r1" } "Admin" "a.b.c" "x" "y" []).2.2
      (by decide)⟩
